import Mathlib

/-!
Verification of the Wwise-generated identifier table
`src/Assets/StreamingAssets/Audio/GeneratedSoundBanks/Wwise_IDs.h`
of the Spanner_3D repository.

The header declares, inside `namespace AK`, three nested namespaces
(`EVENTS`, `BUSSES`, `AUDIO_DEVICES`) of `static const AkUniqueID`
constants.  We embed each constant by name and value, collect them into
an explicit table of entries (name, category, identifier), and model the
only operation the spec describes: reading a constant.
-/

/-- `AkUniqueID` is a 32-bit unsigned integer type in the Wwise SDK;
we embed its values as natural numbers (the 32-bit range is a proved
property, claim C2). -/
abbrev AkUniqueID := Nat

namespace AK

namespace EVENTS

def BGM_RANDOMLOOPING : AkUniqueID := 3963821017

def BGM_RANDOMLOOPING_STOP : AkUniqueID := 2370740652

def BLASTER_FIRE : AkUniqueID := 639453935

def BLASTERV3_FIRE : AkUniqueID := 2401202452

def BOTTLE_SMASH : AkUniqueID := 3295549328

def CHARGING_TOTEM : AkUniqueID := 2008779410

def CHEST_OPEN : AkUniqueID := 2728948375

def CHEST_REVEAL_01 : AkUniqueID := 4062859618

def CHEST_REVEAL_02 : AkUniqueID := 4062859617

def CHEST_REVEAL_03 : AkUniqueID := 4062859616

def CHEST_REVEAL_04 : AkUniqueID := 4062859623

def ITEM_PURCHASE : AkUniqueID := 946567574

def LEVEL_UP : AkUniqueID := 2145291615

def PLAYER_DEATH : AkUniqueID := 3083087645

def PLAYER_JUMP : AkUniqueID := 1305133589

def PLAYER_SPAWN_IN : AkUniqueID := 2311955112

def TOTEM_FINISH : AkUniqueID := 39357614

def WEAPON_UPGRADE_TIER_1 : AkUniqueID := 3850320119

def WEAPON_UPGRADE_TIER_2 : AkUniqueID := 3850320116

def WEAPON_UPGRADE_TIER_3 : AkUniqueID := 3850320117

end EVENTS

namespace BUSSES

def MASTER_AUDIO_BUS : AkUniqueID := 3803692087

end BUSSES

namespace AUDIO_DEVICES

def NO_OUTPUT : AkUniqueID := 2317455096

def SYSTEM : AkUniqueID := 3859886410

end AUDIO_DEVICES

end AK

/-- The three namespaces of the header, as the spec's `Category`:
`EVENTS` / `BUSSES` / `AUDIO_DEVICES`. -/
inductive Category where
  | Event
  | Bus
  | AudioDeviceType
deriving DecidableEq, BEq

/-- One declared constant of the header: symbolic name, enclosing
namespace (category), and declared identifier value. -/
structure Entry where
  name : String
  category : Category
  id : AkUniqueID
deriving DecidableEq

/-- The `AK::EVENTS` namespace, in declaration order. -/
def eventsEntries : List Entry :=
  [⟨"BGM_RANDOMLOOPING", Category.Event, AK.EVENTS.BGM_RANDOMLOOPING⟩,
   ⟨"BGM_RANDOMLOOPING_STOP", Category.Event, AK.EVENTS.BGM_RANDOMLOOPING_STOP⟩,
   ⟨"BLASTER_FIRE", Category.Event, AK.EVENTS.BLASTER_FIRE⟩,
   ⟨"BLASTERV3_FIRE", Category.Event, AK.EVENTS.BLASTERV3_FIRE⟩,
   ⟨"BOTTLE_SMASH", Category.Event, AK.EVENTS.BOTTLE_SMASH⟩,
   ⟨"CHARGING_TOTEM", Category.Event, AK.EVENTS.CHARGING_TOTEM⟩,
   ⟨"CHEST_OPEN", Category.Event, AK.EVENTS.CHEST_OPEN⟩,
   ⟨"CHEST_REVEAL_01", Category.Event, AK.EVENTS.CHEST_REVEAL_01⟩,
   ⟨"CHEST_REVEAL_02", Category.Event, AK.EVENTS.CHEST_REVEAL_02⟩,
   ⟨"CHEST_REVEAL_03", Category.Event, AK.EVENTS.CHEST_REVEAL_03⟩,
   ⟨"CHEST_REVEAL_04", Category.Event, AK.EVENTS.CHEST_REVEAL_04⟩,
   ⟨"ITEM_PURCHASE", Category.Event, AK.EVENTS.ITEM_PURCHASE⟩,
   ⟨"LEVEL_UP", Category.Event, AK.EVENTS.LEVEL_UP⟩,
   ⟨"PLAYER_DEATH", Category.Event, AK.EVENTS.PLAYER_DEATH⟩,
   ⟨"PLAYER_JUMP", Category.Event, AK.EVENTS.PLAYER_JUMP⟩,
   ⟨"PLAYER_SPAWN_IN", Category.Event, AK.EVENTS.PLAYER_SPAWN_IN⟩,
   ⟨"TOTEM_FINISH", Category.Event, AK.EVENTS.TOTEM_FINISH⟩,
   ⟨"WEAPON_UPGRADE_TIER_1", Category.Event, AK.EVENTS.WEAPON_UPGRADE_TIER_1⟩,
   ⟨"WEAPON_UPGRADE_TIER_2", Category.Event, AK.EVENTS.WEAPON_UPGRADE_TIER_2⟩,
   ⟨"WEAPON_UPGRADE_TIER_3", Category.Event, AK.EVENTS.WEAPON_UPGRADE_TIER_3⟩]

/-- The `AK::BUSSES` namespace. -/
def bussesEntries : List Entry :=
  [⟨"MASTER_AUDIO_BUS", Category.Bus, AK.BUSSES.MASTER_AUDIO_BUS⟩]

/-- The `AK::AUDIO_DEVICES` namespace. -/
def audioDevicesEntries : List Entry :=
  [⟨"NO_OUTPUT", Category.AudioDeviceType, AK.AUDIO_DEVICES.NO_OUTPUT⟩,
   ⟨"SYSTEM", Category.AudioDeviceType, AK.AUDIO_DEVICES.SYSTEM⟩]

/-- The whole table of the header, all three namespaces in file order. -/
def wwiseTable : List Entry :=
  eventsEntries ++ bussesEntries ++ audioDevicesEntries

/-- Resolving a symbolic name inside a category to its declared value:
the first declaration of that name in that namespace, if any. -/
def lookupId (t : List Entry) (c : Category) (n : String) : Option AkUniqueID :=
  (t.find? (fun e => e.category == c && e.name == n)).map (fun e => e.id)

/-- Reading a constant, as an operation on the table viewed as program
state: it returns the looked-up value and the (unchanged) table. -/
def readConst (t : List Entry) (c : Category) (n : String) :
    Option AkUniqueID × List Entry :=
  (lookupId t c n, t)

/-- Running a sequence of reads, threading the table state through. -/
def runReads (t : List Entry) : List (Category × String) → List (Option AkUniqueID) × List Entry
  | [] => ([], t)
  | q :: qs =>
    let r := readConst t q.1 q.2
    let rest := runReads r.2 qs
    (r.1 :: rest.1, rest.2)

/-- The byte values of a name (all names involved are plain ASCII). -/
def nameBytes (s : String) : List Nat :=
  s.data.map Char.toNat

/-- Lowercasing one ASCII byte. -/
def lowerByte (b : Nat) : Nat :=
  if 65 ≤ b ∧ b ≤ 90 then b + 32 else b

/-- The lowercased byte sequence of a symbolic name. -/
def asciiLower (s : String) : List Nat :=
  (nameBytes s).map lowerByte

/-- Replacing a space byte by an underscore byte, as the authoring tool
does when it derives a C++ symbolic name from an object's display name. -/
def spaceToUnderscore (b : Nat) : Nat :=
  if b = 32 then 95 else b

/-- Modelled from the spec: the external authoring tool (not part of
this repository) computes each identifier as the 32-bit FNV-1 hash of
the lowercased object name: starting from the offset basis 2166136261,
each byte multiplies the state by the prime 16777619 modulo 2^32 and
is then XORed in. -/
def fnv1Hash (bytes : List Nat) : Nat :=
  bytes.foldl (fun h b => (h * 16777619 % 4294967296) ^^^ b) 2166136261

/-- Modelled from the spec: the lowercased display name (as bytes) of
the authoring object behind each entry, missing from this repository.
For every entry except the master bus the display name is the symbolic
name itself; the default Wwise master bus is displayed as the three
words of `MASTER_AUDIO_BUS` separated by spaces, not underscores. -/
def authoringName (e : Entry) : List Nat :=
  if e.name = "MASTER_AUDIO_BUS" then nameBytes "master audio bus"
  else asciiLower e.name

/-- C1: within each of the three categories (EVENTS, BUSSES,
AUDIO_DEVICES), all symbolic names are pairwise distinct and all
identifier values are pairwise distinct. -/
theorem C1_names_and_ids_unique_per_category :
    (eventsEntries.map (fun e => e.name)).Nodup ∧
    (eventsEntries.map (fun e => e.id)).Nodup ∧
    (bussesEntries.map (fun e => e.name)).Nodup ∧
    (bussesEntries.map (fun e => e.id)).Nodup ∧
    (audioDevicesEntries.map (fun e => e.name)).Nodup ∧
    (audioDevicesEntries.map (fun e => e.id)).Nodup := by
  decide

/-- C2: every identifier declared in the table is an unsigned 32-bit
value, lying in the range 0 .. 2^32 - 1. -/
theorem C2_ids_are_32bit :
    ∀ e ∈ wwiseTable, e.id < 2 ^ 32 := by
  decide

/-- Witness for C2 at the concrete entry BGM_RANDOMLOOPING. -/
theorem C2_ids_are_32bit_witness :
    (⟨"BGM_RANDOMLOOPING", Category.Event, 3963821017⟩ : Entry) ∈ wwiseTable ∧
    (⟨"BGM_RANDOMLOOPING", Category.Event, 3963821017⟩ : Entry).id < 2 ^ 32 :=
  ⟨by decide, C2_ids_are_32bit ⟨"BGM_RANDOMLOOPING", Category.Event, 3963821017⟩ (by decide)⟩

/-- C3: the event named BGM_RANDOMLOOPING maps to exactly 3963821017;
looking up the constant `AK::EVENTS::BGM_RANDOMLOOPING` returns
3963821017. -/
theorem C3_bgm_randomlooping_value :
    AK.EVENTS.BGM_RANDOMLOOPING = 3963821017 ∧
    lookupId wwiseTable Category.Event "BGM_RANDOMLOOPING" = some 3963821017 := by
  exact ⟨rfl, by decide⟩

/-- C4 counterexample: the claim that every identifier is the 32-bit
FNV-1 hash of the lowercased symbolic name fails at the concrete entry
MASTER_AUDIO_BUS, whose declared value 3803692087 differs from
`fnv1Hash (asciiLower "MASTER_AUDIO_BUS")` = 2392784291. -/
theorem C4_hash_of_symbolic_name_counterexample :
    (⟨"MASTER_AUDIO_BUS", Category.Bus, 3803692087⟩ : Entry) ∈ wwiseTable ∧
    fnv1Hash (asciiLower "MASTER_AUDIO_BUS") = 2392784291 ∧
    (⟨"MASTER_AUDIO_BUS", Category.Bus, 3803692087⟩ : Entry).id ≠
      fnv1Hash (asciiLower "MASTER_AUDIO_BUS") := by
  decide

/-- C4 (amended): for every entry, the identifier is the 32-bit FNV-1
hash of the lowercased authoring-tool object name, a name equal to the
lowercased symbolic name once each of its spaces is replaced by an
underscore (for 22 of the 23 entries the two names coincide; the master
bus's authoring name is "master audio bus"). -/
theorem C4_id_is_fnv1_of_authoring_name :
    ∀ e ∈ wwiseTable,
      fnv1Hash (authoringName e) = e.id ∧
      (authoringName e).map spaceToUnderscore = asciiLower e.name := by
  decide

/-- Witness for the amended C4 at the concrete entry MASTER_AUDIO_BUS. -/
theorem C4_id_is_fnv1_of_authoring_name_witness :
    (⟨"MASTER_AUDIO_BUS", Category.Bus, 3803692087⟩ : Entry) ∈ wwiseTable ∧
    (fnv1Hash (authoringName ⟨"MASTER_AUDIO_BUS", Category.Bus, 3803692087⟩) =
        (⟨"MASTER_AUDIO_BUS", Category.Bus, 3803692087⟩ : Entry).id ∧
      (authoringName ⟨"MASTER_AUDIO_BUS", Category.Bus, 3803692087⟩).map spaceToUnderscore =
        asciiLower (⟨"MASTER_AUDIO_BUS", Category.Bus, 3803692087⟩ : Entry).name) :=
  ⟨by decide,
   C4_id_is_fnv1_of_authoring_name ⟨"MASTER_AUDIO_BUS", Category.Bus, 3803692087⟩ (by decide)⟩

/-- C5: every entry of the table belongs to exactly one of the three
categories, the table is exactly the concatenation of the three
namespaces, and filtering the table by each category recovers exactly
that namespace (so no entry lies outside the three namespaces, and all
entries share the same shape: an `Entry` of name plus identifier). -/
theorem C5_three_categories_partition :
    (∀ e ∈ wwiseTable,
      e.category = Category.Event ∨ e.category = Category.Bus ∨
        e.category = Category.AudioDeviceType) ∧
    wwiseTable = eventsEntries ++ bussesEntries ++ audioDevicesEntries ∧
    wwiseTable.filter (fun e => e.category == Category.Event) = eventsEntries ∧
    wwiseTable.filter (fun e => e.category == Category.Bus) = bussesEntries ∧
    wwiseTable.filter (fun e => e.category == Category.AudioDeviceType) = audioDevicesEntries := by
  refine ⟨by decide, rfl, by decide, by decide, by decide⟩

/-- Witness for C5 at the concrete entry SYSTEM of AUDIO_DEVICES. -/
theorem C5_three_categories_partition_witness :
    (⟨"SYSTEM", Category.AudioDeviceType, 3859886410⟩ : Entry) ∈ wwiseTable ∧
    ((⟨"SYSTEM", Category.AudioDeviceType, 3859886410⟩ : Entry).category = Category.Event ∨
      (⟨"SYSTEM", Category.AudioDeviceType, 3859886410⟩ : Entry).category = Category.Bus ∨
      (⟨"SYSTEM", Category.AudioDeviceType, 3859886410⟩ : Entry).category =
        Category.AudioDeviceType) :=
  ⟨by decide,
   C5_three_categories_partition.1 ⟨"SYSTEM", Category.AudioDeviceType, 3859886410⟩ (by decide)⟩

/-- C6: the table is immutable and reads have no side effects: reading
any constant leaves the table unchanged, and a second read of the same
constant, performed on the state the first read left, returns the same
value as the first. -/
theorem C6_reads_are_pure :
    ∀ (t : List Entry) (c : Category) (n : String),
      (readConst t c n).2 = t ∧
      (readConst (readConst t c n).2 c n).1 = (readConst t c n).1 :=
  fun _ _ _ => ⟨rfl, rfl⟩

/-- C7: lookup never fails on a declared name: for every entry of the
table, looking up its symbolic name in its category succeeds and
returns exactly its bound identifier. -/
theorem C7_lookup_total_on_declared_names :
    ∀ e ∈ wwiseTable, lookupId wwiseTable e.category e.name = some e.id := by
  decide

/-- Witness for C7 at the concrete entry NO_OUTPUT of AUDIO_DEVICES. -/
theorem C7_lookup_total_on_declared_names_witness :
    (⟨"NO_OUTPUT", Category.AudioDeviceType, 2317455096⟩ : Entry) ∈ wwiseTable ∧
    lookupId wwiseTable
        (⟨"NO_OUTPUT", Category.AudioDeviceType, 2317455096⟩ : Entry).category
        (⟨"NO_OUTPUT", Category.AudioDeviceType, 2317455096⟩ : Entry).name =
      some (⟨"NO_OUTPUT", Category.AudioDeviceType, 2317455096⟩ : Entry).id :=
  ⟨by decide,
   C7_lookup_total_on_declared_names ⟨"NO_OUTPUT", Category.AudioDeviceType, 2317455096⟩
     (by decide)⟩

/-- C8: concurrent readers are safe because no operation mutates the
table: any sequence of reads, in any order (hence any interleaving of
concurrent readers), returns for each read exactly the pure lookup of
its name against the initial table, and leaves the table unchanged —
so every interleaving observes the same values as sequential reads. -/
theorem C8_any_read_schedule_is_pure_lookup :
    ∀ (t : List Entry) (qs : List (Category × String)),
      runReads t qs = (qs.map (fun q => lookupId t q.1 q.2), t) := by
  intro t qs
  induction qs with
  | nil => rfl
  | cons q qs ih => simp [runReads, readConst, ih]

/-- C9: identifier values are globally unique across the whole table:
all 23 identifiers in the file are pairwise distinct, even across
categories. -/
theorem C9_ids_globally_distinct :
    (wwiseTable.map (fun e => e.id)).Nodup ∧ wwiseTable.length = 23 := by
  decide

/-- C10: no identifier in the table is zero: every declared constant is
strictly positive, so none collides with the invalid-ID sentinel 0. -/
theorem C10_no_zero_id :
    ∀ e ∈ wwiseTable, 0 < e.id := by
  decide

/-- Witness for C10 at the concrete entry TOTEM_FINISH. -/
theorem C10_no_zero_id_witness :
    (⟨"TOTEM_FINISH", Category.Event, 39357614⟩ : Entry) ∈ wwiseTable ∧
    0 < (⟨"TOTEM_FINISH", Category.Event, 39357614⟩ : Entry).id :=
  ⟨by decide, C10_no_zero_id ⟨"TOTEM_FINISH", Category.Event, 39357614⟩ (by decide)⟩
